import Mathlib

/-!
Shallow embedding of the grades-notification script (`src/main.py`).

JSON documents are modelled by the inductive type `Json`; record ids are
modelled as integers (the script only ever compares and sorts them, and the
verified properties all concern integer ids).  Python dictionary access
`d[k]` and `d.get(k, default)` are modelled by `Json.find?` and `pyDictGet`;
a `none` result of an operation stands for an uncaught Python exception at
that point.  The orchestrator `main()` is embedded as `runMain`, a function
from its environment (previous-snapshot file, mail-transport health) to the
list of externally visible effects it performs, in order.  The login
heuristic of `login_and_fetch` is embedded separately as `login` over an
abstract page model.
-/

/-- JSON values, as produced by `json.loads`. -/
inductive Json where
  | null : Json
  | bool (b : Bool) : Json
  | num (n : Int) : Json
  | str (s : String) : Json
  | arr (elems : List Json) : Json
  | obj (fields : List (String × Json)) : Json

/-- Key lookup on a JSON object (Python `d[k]` on a dict; `none` both for a
missing key and for subscripting a non-object, which the script's callers
treat as an error). -/
def Json.find? (j : Json) (k : String) : Option Json :=
  match j with
  | Json.obj fs => (fs.find? (fun p => p.1 == k)).map Prod.snd
  | _ => none

/-- Whether a JSON value is an object (a Python dict). -/
def Json.isObj : Json → Bool
  | Json.obj _ => true
  | _ => false

/-- Python `d.get(k, default)`: defined only on dicts (`none` models the
`AttributeError` raised on any other value). -/
def pyDictGet (j : Json) (k : String) (d : Json) : Option Json :=
  if j.isObj then some ((j.find? k).getD d) else none

/-- View a JSON value as an array of records (iteration in the script). -/
def Json.asArr : Json → Option (List Json)
  | Json.arr xs => some xs
  | _ => none

/-- View a JSON value as an integer id. -/
def Json.asInt : Json → Option Int
  | Json.num n => some n
  | _ => none

/-- A single quote character, used by the Python-style rendering below. -/
def pyQuote : String := String.singleton (Char.ofNat 39)

/-- Comma separator used by Python `str` on containers. -/
def commaSep : String := ", "

mutual
/-- Python `repr` of a JSON value (used for elements of containers). -/
def Json.pyrepr : Json → String
  | Json.null => "None"
  | Json.bool b => if b then "True" else "False"
  | Json.num n => toString n
  | Json.str s => pyQuote ++ s ++ pyQuote
  | Json.arr xs => "[" ++ String.intercalate commaSep (pyreprList xs) ++ "]"
  | Json.obj fs => "\x7b" ++ String.intercalate commaSep (pyreprFields fs) ++ "\x7d"

/-- `repr` of each element of a JSON array. -/
def pyreprList : List Json → List String
  | [] => []
  | x :: xs => Json.pyrepr x :: pyreprList xs

/-- `repr` of each key/value pair of a JSON object. -/
def pyreprFields : List (String × Json) → List String
  | [] => []
  | kv :: fs => (pyQuote ++ kv.1 ++ pyQuote ++ ": " ++ Json.pyrepr kv.2) :: pyreprFields fs
end

/-- Python `str` of a JSON value, as interpolated into the notification
f-strings (`str(None) = "None"`, strings unquoted at top level). -/
def Json.pystr : Json → String
  | Json.str s => s
  | j => Json.pyrepr j

/-- Keys used by the script. -/
def kData : String := "data"

/-- The `grades` key. -/
def kGrades : String := "grades"

/-- The `id` key. -/
def kId : String := "id"

/-- The `collection` key. -/
def kCollection : String := "collection"

/-- The `subject` key. -/
def kSubject : String := "subject"

/-- The `name` key. -/
def kName : String := "name"

/-- The `given_at` key. -/
def kGivenAt : String := "given_at"

/-- `data["data"]["grades"]` (main.py line 224); `none` means the bare
`except` fires and the run is aborted with "JSON format unexpected.". -/
def getGrades (data : Json) : Option Json :=
  (data.find? kData).bind (fun d => d.find? kGrades)

/-- `prev.get("data", {}).get("grades", [])` (main.py line 237); `none`
models the uncaught `AttributeError` when a traversed value is not a dict. -/
def prevRecords (prev : Json) : Option Json :=
  (pyDictGet prev kData (Json.obj [])).bind
    (fun d => pyDictGet d kGrades (Json.arr []))

/-- `[g["id"] for g in gs]`: extract every record's id, in order; `none`
models the uncaught exception for a record without an integer id. -/
def getIds : List Json → Option (List Int)
  | [] => some []
  | g :: gs => do
    let idJ ← g.find? kId
    let i ← idJ.asInt
    let rest ← getIds gs
    pure (i :: rest)

/-- `{g["id"] for g in prev.get("data", {}).get("grades", [])}` as an ordered
list (the set semantics is recovered by `diff`, which deduplicates). -/
def prevIdList (prev : Json) : Option (List Int) := do
  let recsJ ← prevRecords prev
  let gs ← recsJ.asArr
  getIds gs

/-- `sorted(curr_ids - prev_ids)` (main.py line 240) with the two sets given
by their element lists: the ascending duplicate-free list of ids occurring
in the current set and not in the previous set. -/
def diff (prevIds currIds : List Int) : List Int :=
  List.insertionSort (· ≤ ·) ((currIds.filter (fun i => !(prevIds.contains i))).dedup)

/-- One entry of the `notes` list built in main.py lines 249-254. -/
structure Note where
  id : Int
  subject : Json
  collection : Json
  given_at : Json

/-- The dict literal of main.py lines 249-254 for one new record `g` whose
id is `i`: `subject = g.get("collection", {}).get("subject", {}).get("name")`,
`collection = g.get("collection", {}).get("name")`, `given_at = g.get("given_at")`. -/
def noteBody (g : Json) (i : Int) : Option Note := do
  let coll ← pyDictGet g kCollection (Json.obj [])
  let subjObj ← pyDictGet coll kSubject (Json.obj [])
  let sname ← pyDictGet subjObj kName Json.null
  let cname ← pyDictGet coll kName Json.null
  let giv ← pyDictGet g kGivenAt Json.null
  pure { id := i, subject := sname, collection := cname, given_at := giv }

/-- The `notes` loop of main.py lines 246-254: for each record in order,
look up its id, keep the record iff the id is among the new ids. -/
def notesFor : List Json → List Int → Option (List Note)
  | [], _ => some []
  | g :: gs, newIds => do
    let idJ ← g.find? kId
    let i ← idJ.asInt
    if newIds.contains i then
      let n ← noteBody g i
      let rest ← notesFor gs newIds
      pure (n :: rest)
    else
      notesFor gs newIds

/-- `f"[Noten-Update] {len(notes)} neue Einträge"` (main.py line 256). -/
def subjectLine (notes : List Note) : String :=
  "[Noten-Update] " ++ toString notes.length ++ " neue Einträge"

/-- One body block (main.py line 258). -/
def renderNote (n : Note) : String :=
  "Fach: " ++ n.subject.pystr ++ "\nBezeichnung: " ++ n.collection.pystr
    ++ "\nDatum: " ++ n.given_at.pystr

/-- `"\n\n".join(...)` over the rendered blocks (main.py lines 257-260). -/
def bodyText (notes : List Note) : String :=
  String.intercalate "\n\n" (notes.map renderNote)

/-- Externally visible effects of one run of `main()`, in order. -/
inductive Effect where
  | writeCurrent (d : Json) : Effect
  | gitMv : Effect
  | commitPush (msg : String) : Effect
  | sendMail (subject body : String) : Effect
  | writePrev (d : Json) : Effect
  | fatalError (msg : String) : Effect
  | crash : Effect

/-- Environment of one run: whether `previous.json` exists and with which
content, and whether the SMTP transport succeeds when invoked. -/
structure Env where
  prevExists : Bool
  prevContent : Json
  mailOk : Bool

/-- Content of `previous.json` before the run (`none` when absent). -/
def initPrev (e : Env) : Option Json :=
  if e.prevExists then some e.prevContent else none

/-- main.py lines 242-267: given the computed new ids, either return
silently, or compose the mail, send it (a transport failure aborts the run),
overwrite `previous.json` and push. -/
def notifyPhase (e : Env) (data : Json) (gs : List Json) (newIds : List Int) :
    List Effect :=
  if newIds.isEmpty then []
  else
    match notesFor gs newIds with
    | none => [Effect.crash]
    | some notes =>
      Effect.sendMail (subjectLine notes) (bodyText notes) ::
        (if e.mailOk then [Effect.writePrev data, Effect.commitPush ("Updated sample")]
         else [Effect.crash])

/-- main.py lines 234-240: read the previous ids (lenient `.get` chain),
then the current ids (the records of `data["data"]["grades"]`), and diff. -/
def diffPhase (e : Env) (data : Json) (gradesJ : Json) : List Effect :=
  match prevIdList e.prevContent with
  | none => [Effect.crash]
  | some prevIds =>
    match gradesJ.asArr with
    | none => [Effect.crash]
    | some gs =>
      match getIds gs with
      | none => [Effect.crash]
      | some currIds =>
        notifyPhase e data gs (diff prevIds currIds)

/-- `main()` (main.py lines 217-267): write `current.json`, check the
`data.grades` shape, bootstrap when `previous.json` is absent, otherwise
diff and notify. -/
def runMain (e : Env) (data : Json) : List Effect :=
  Effect.writeCurrent data ::
    match getGrades data with
    | none => [Effect.fatalError ("JSON format unexpected.")]
    | some gradesJ =>
      if e.prevExists = false then
        [Effect.gitMv, Effect.commitPush ("Initial sample")]
      else
        diffPhase e data gradesJ

/-- State of the two snapshot files. -/
structure FileState where
  prev : Option Json
  curr : Option Json

/-- File-level meaning of each effect (`git mv current.json previous.json`
moves the current file onto the previous one). -/
def applyEffect (fs : FileState) : Effect → FileState
  | Effect.writeCurrent d => { fs with curr := some d }
  | Effect.gitMv => { prev := fs.curr, curr := none }
  | Effect.writePrev d => { fs with prev := some d }
  | _ => fs

/-- Snapshot files after a run. -/
def filesAfter (e : Env) (data : Json) : FileState :=
  (runMain e data).foldl applyEffect { prev := initPrev e, curr := none }

/-- The notifications attempted by a run: subject/body of each mail handed
to the transport, in order. -/
def mailsOf (tr : List Effect) : List (String × String) :=
  tr.filterMap (fun eff => match eff with
    | Effect.sendMail s b => some (s, b)
    | _ => none)

/-- The new-id list a run computes (main.py lines 224-240), `none` when the
run aborts before reaching the diff. -/
def runNewIds (e : Env) (data : Json) : Option (List Int) := do
  let gradesJ ← getGrades data
  let prevIds ← prevIdList e.prevContent
  let gs ← gradesJ.asArr
  let currIds ← getIds gs
  pure (diff prevIds currIds)

/-- The credential/field-hint configuration read from `SECRETS`
(main.py lines 38-43). -/
structure Secrets where
  loginUsername : String
  loginPassword : String
  loginFormFieldUser : String
  loginFormFieldPass : String

/-- Behaviour of one clickable candidate during submission strategy B:
its click raises, succeeds without leaving the login form, or succeeds and
makes the login form (the identity field) disappear. -/
inductive BtnOutcome where
  | raises : BtnOutcome
  | noEffect : BtnOutcome
  | submits : BtnOutcome
deriving DecidableEq

/-- Abstract login page: the names of its input controls in document order,
the values the two credential fields report after being filled
(`input_value()`), whether the ENTER keypress submits the form, and the
clickable candidates in document order. -/
structure Page where
  inputNames : List String
  userReadback : String
  passReadback : String
  enterSubmits : Bool
  buttons : List BtnOutcome

/-- Terminal outcome of `login_and_fetch`'s login part. -/
inductive LoginResult where
  | noUserField : LoginResult
  | noPassField : LoginResult
  | loginFailed : LoginResult
  | success : LoginResult
deriving DecidableEq

/-- Observable record of one login attempt: what was written into each
field, what each field reported back (and was printed), whether ENTER was
pressed, which clickable candidates were attempted, and the outcome. -/
structure LoginTrace where
  filledUser : Option String
  readUser : Option String
  filledPass : Option String
  readPass : Option String
  enterPressed : Bool
  clicks : List BtnOutcome
  result : LoginResult

/-- `possible_user_fields` (main.py lines 85-91). -/
def possible_user_fields (c : Secrets) : List String :=
  [c.loginFormFieldUser, "identifier", "username", "email", "user"]

/-- `possible_pass_fields` (main.py lines 93-98). -/
def possible_pass_fields (c : Secrets) : List String :=
  [c.loginFormFieldPass, "password", "pass", "passwd"]

/-- The selector loops of main.py lines 103-113: the first candidate name
for which `page.locator(sel).count() > 0`. -/
def findField (names : List String) (cands : List String) : Option String :=
  cands.find? (fun f => names.contains f)

/-- Strategy B (main.py lines 144-158): walk the clickable candidates in
order; a raising click is swallowed and the loop advances; a click after
which the identity field is gone stops the loop with success; otherwise the
loop continues.  Returns the attempted candidates and whether the identity
field is gone. -/
def strategyB : List BtnOutcome → List BtnOutcome × Bool
  | [] => ([], false)
  | b :: rest =>
    match b with
    | BtnOutcome.submits => ([BtnOutcome.submits], true)
    | _ => (b :: (strategyB rest).1, (strategyB rest).2)

/-- The login part of `login_and_fetch` (main.py lines 85-165): resolve the
identity and secret fields, fill both and read each back (the read-back
value is printed, lines 125 and 129), press ENTER in the secret field, fall
through to strategy B when the identity field is still present, and fail
if it is present after both strategies. -/
def login (c : Secrets) (p : Page) : LoginTrace :=
  match findField p.inputNames (possible_user_fields c) with
  | none =>
    { filledUser := none, readUser := none, filledPass := none,
      readPass := none, enterPressed := false, clicks := [],
      result := LoginResult.noUserField }
  | some _ =>
    match findField p.inputNames (possible_pass_fields c) with
    | none =>
      { filledUser := none, readUser := none, filledPass := none,
        readPass := none, enterPressed := false, clicks := [],
        result := LoginResult.noPassField }
    | some _ =>
      if p.enterSubmits then
        { filledUser := some c.loginUsername, readUser := some p.userReadback,
          filledPass := some c.loginPassword, readPass := some p.passReadback,
          enterPressed := true, clicks := [],
          result := LoginResult.success }
      else
        { filledUser := some c.loginUsername, readUser := some p.userReadback,
          filledPass := some c.loginPassword, readPass := some p.passReadback,
          enterPressed := true, clicks := (strategyB p.buttons).1,
          result := if (strategyB p.buttons).2 then LoginResult.success
                    else LoginResult.loginFailed }

/-- Scans a trace: `true` iff no `previous.json` overwrite occurs before a
mail hand-off (the first of the two kinds of events, if any, is the mail). -/
def mailPrecedesPersist : List Effect → Bool
  | [] => true
  | Effect.writePrev _ :: _ => false
  | Effect.sendMail _ _ :: _ => true
  | _ :: rest => mailPrecedesPersist rest

/-- Declarative nested path lookup, following the spec's reading of the
composer's extraction (`none` as soon as a step is missing). -/
def specLookupPath : Json → List String → Option Json
  | j, [] => some j
  | j, k :: rest =>
    match j.find? k with
    | some v => specLookupPath v rest
    | none => none

/-- Two records agree on everything the notification pipeline reads: being
a dict, and the values at the `id`, `collection` and `given_at` keys.
Records differing only in a numeric `value` field (or any other key) are
related. -/
def recAgrees (g1 g2 : Json) : Prop :=
  g1.isObj = g2.isObj ∧ g1.find? kId = g2.find? kId ∧
    g1.find? kCollection = g2.find? kCollection ∧
    g1.find? kGivenAt = g2.find? kGivenAt

/-- Snapshot document with the given records. -/
def snapOf (gs : List Json) : Json :=
  Json.obj [(kData, Json.obj [(kGrades, Json.arr gs)])]

/-- A minimal record with id 1. -/
def gradeRec1 : Json := Json.obj [(kId, Json.num 1)]

/-- A full record with id 2 and a numeric `value` field. -/
def mathQuizRec (v : Int) : Json :=
  Json.obj [(kId, Json.num 2),
    (kCollection, Json.obj [(kName, Json.str ("Quiz 1")),
      (kSubject, Json.obj [(kName, Json.str ("Math"))])]),
    (kGivenAt, Json.str ("2024-01-01")),
    ("value", Json.num v)]

/-- Previous snapshot holding only the record with id 1. -/
def snapPrev1 : Json := snapOf [gradeRec1]

/-- Standard environment: previous snapshot present, mail transport up. -/
def envStd : Env := { prevExists := true, prevContent := snapPrev1, mailOk := true }

/-- Environment whose previous snapshot file holds the JSON document `5`. -/
def envPrevNum : Env := { prevExists := true, prevContent := Json.num 5, mailOk := true }

/-- A record whose collection has a subject without a `name` but with an
alternate identifier field, and a collection name. -/
def subjNoName : Json :=
  Json.obj [(kId, Json.num 1),
    (kCollection, Json.obj [(kSubject, Json.obj [(kId, Json.num 42)]),
      (kName, Json.str ("Quiz"))]),
    (kGivenAt, Json.str ("2024-01-01"))]

/-- Concrete credentials for the login examples. -/
def secretsEx : Secrets :=
  { loginUsername := "alice", loginPassword := "hunter2",
    loginFormFieldUser := "username", loginFormFieldPass := "password" }

/-- A login page that silently truncates the filled username: the field
reports "al" after "alice" was written.  ENTER submits. -/
def pageGarbled : Page :=
  { inputNames := ["username", "password"], userReadback := "al",
    passReadback := "hunter2", enterSubmits := true, buttons := [] }

/-- Credentials with a non-default preferred identity field name. -/
def secretsPref : Secrets :=
  { loginUsername := "alice", loginPassword := "hunter2",
    loginFormFieldUser := "login_id", loginFormFieldPass := "password" }

/-- A page exposing the preferred identity field name alongside fallback
names. -/
def pagePref : Page :=
  { inputNames := ["email", "login_id", "username", "password"],
    userReadback := "alice", passReadback := "hunter2",
    enterSubmits := true, buttons := [] }

/-- A page with no recognisable input names at all. -/
def pageNoFields : Page :=
  { inputNames := ["csrf_token"], userReadback := "", passReadback := "",
    enterSubmits := false, buttons := [] }

/-- A page where ENTER does not submit and no button click submits either;
the first button click raises. -/
def pageStuck : Page :=
  { inputNames := ["username", "password"], userReadback := "alice",
    passReadback := "hunter2", enterSubmits := false,
    buttons := [BtnOutcome.raises, BtnOutcome.noEffect] }

/-- A current document whose `data` value is not an object, so the
`data.grades` lookup fails. -/
def dBad : Json := Json.obj [(kData, Json.num 3)]

/-- The notification (if any) determined by the records and new-id list:
closed form of the mails reachable from `notifyPhase`. -/
def mailPlanNotify (gs : List Json) (ids : List Int) : List (String × String) :=
  if ids.isEmpty then []
  else
    match notesFor gs ids with
    | none => []
    | some notes => [(subjectLine notes, bodyText notes)]

/-- The notifications a non-bootstrap run attempts, as a function of the
previous snapshot content and the current `grades` value alone. -/
def mailPlan (prev : Json) (gJ : Json) : List (String × String) :=
  match prevIdList prev with
  | none => []
  | some prevIds =>
    match gJ.asArr with
    | none => []
    | some gs =>
      match getIds gs with
      | none => []
      | some currIds => mailPlanNotify gs (diff prevIds currIds)

/-- Environment whose previous snapshot is `{"data": {}}`: present, an
object at each traversed step, but without the `grades` key. -/
def envPrevNoGrades : Env :=
  { prevExists := true, prevContent := Json.obj [(kData, Json.obj [])], mailOk := true }

/-- Environment with a present previous snapshot and a failing mail
transport. -/
def envNoMail : Env := { prevExists := true, prevContent := snapPrev1, mailOk := false }

/-- Bootstrap environment: no previous snapshot. -/
def envBoot : Env := { prevExists := false, prevContent := Json.null, mailOk := true }

/-- A current snapshot with three records. -/
def snap3 : Json := snapOf [gradeRec1, mathQuizRec 5, subjNoName]

/-! ## Helper lemmas -/

theorem diff_sorted (p c : List Int) : List.Sorted (· ≤ ·) (diff p c) :=
  List.sorted_insertionSort _ _

theorem diff_nodup (p c : List Int) : (diff p c).Nodup :=
  ((List.perm_insertionSort _ _).nodup_iff).mpr (List.nodup_dedup _)

theorem mem_diff (x : Int) (p c : List Int) : x ∈ diff p c ↔ x ∈ c ∧ x ∉ p := by
  unfold diff
  rw [(List.perm_insertionSort _ _).mem_iff, List.mem_dedup, List.mem_filter]
  simp [List.contains]

theorem mailsOf_notifyPhase (e : Env) (d : Json) (gs : List Json) (ids : List Int) :
    mailsOf (notifyPhase e d gs ids) =
      if ids.isEmpty then []
      else
        match notesFor gs ids with
        | none => []
        | some notes => [(subjectLine notes, bodyText notes)] := by
  unfold notifyPhase
  by_cases hi : ids.isEmpty
  · simp [hi, mailsOf]
  · simp only [hi, if_false]
    cases notesFor gs ids
    · simp [mailsOf]
    · by_cases hm : e.mailOk <;> simp [hm, mailsOf]

/-! ## Claims -/

/-- C1: for every pair of previous/current id sets (given by their element
lists), `diff` returns exactly the ascending-sorted duplicate-free sequence
of ids present in the current set and absent from the previous one; ids
occurring only in the previous set never appear in the result; and identical
inputs always yield identical, order-stable output. -/
theorem diff_returns_sorted_new_ids (prevIds currIds : List Int) :
    List.Sorted (· ≤ ·) (diff prevIds currIds) ∧
    (diff prevIds currIds).Nodup ∧
    (∀ x : Int, x ∈ diff prevIds currIds ↔ x ∈ currIds ∧ x ∉ prevIds) ∧
    (∀ p c : List Int, p = prevIds → c = currIds →
      diff p c = diff prevIds currIds) := by
  refine ⟨diff_sorted _ _, diff_nodup _ _, fun x => mem_diff x _ _, ?_⟩
  intro p c hp hc
  rw [hp, hc]

/-- Witness for C1 at previous ids `[1, 2]`, current ids `[2, 3]`. -/
theorem diff_returns_sorted_new_ids_witness :
    (3 : Int) ∈ diff [1, 2] [2, 3] ∧ (1 : Int) ∉ diff [1, 2] [2, 3] ∧
    diff [1, 2] [2, 3] = diff [1, 2] [2, 3] :=
  ⟨((diff_returns_sorted_new_ids [1, 2] [2, 3]).2.2.1 3).mpr (by decide),
   fun h =>
     (((diff_returns_sorted_new_ids [1, 2] [2, 3]).2.2.1 1).mp h).2 (by decide),
   (diff_returns_sorted_new_ids [1, 2] [2, 3]).2.2.2 [1, 2] [2, 3] rfl rfl⟩

/-- C2: when the previous snapshot file is absent, no notification is ever
attempted, whatever the current snapshot contains; and whenever the current
document has the `data.grades` shape, the run's only effects are writing
`current.json`, `git mv`-ing it onto `previous.json` and committing, after
which the previous-snapshot file holds the current data as the baseline. -/
theorem bootstrap_sends_no_mail_and_sets_baseline (e : Env) (data : Json)
    (h : e.prevExists = false) :
    mailsOf (runMain e data) = [] ∧
    (∀ gJ, getGrades data = some gJ →
      runMain e data = [Effect.writeCurrent data, Effect.gitMv,
        Effect.commitPush ("Initial sample")] ∧
      (filesAfter e data).prev = some data) := by
  constructor
  · cases hg : getGrades data <;> simp [runMain, hg, h, mailsOf]
  · intro gJ hg
    constructor
    · simp [runMain, hg, h]
    · simp [filesAfter, runMain, hg, h, applyEffect, List.foldl]

/-- Witness for C2: a bootstrap run over a current snapshot with three
records attempts no mail and installs the snapshot as `previous.json`. -/
theorem bootstrap_sends_no_mail_and_sets_baseline_witness :
    mailsOf (runMain envBoot snap3) = [] ∧
    (filesAfter envBoot snap3).prev = some snap3 :=
  ⟨(bootstrap_sends_no_mail_and_sets_baseline envBoot snap3 rfl).1,
   ((bootstrap_sends_no_mail_and_sets_baseline envBoot snap3 rfl).2
     (Json.arr [gradeRec1, mathQuizRec 5, subjNoName]) rfl).2⟩

/-- C7 counterexample to the claim as stated: on a current document lacking
the `data.grades` shape, `current.json` has already been written to disk —
a persistence effect — before the run terminates with the format error, so
the run does not fail "before any persistence occurs".  (The previous
snapshot is indeed untouched; only the scratch current-file write
precedes the error.) -/
theorem format_error_current_already_written_cex :
    runMain envPrevNum dBad
      = [Effect.writeCurrent dBad, Effect.fatalError ("JSON format unexpected.")] ∧
    (filesAfter envPrevNum dBad).curr = some dBad ∧
    mailsOf (runMain envPrevNum dBad) = [] :=
  ⟨rfl, rfl, rfl⟩

/-- C7 amended: when the fetched current JSON lacks the nested `data.grades`
shape, the run terminates with the unexpected-format error before any
notification and before any persistence of the snapshot state other than
the already-performed scratch `current.json` write: no mail is attempted,
no `git mv`, no `previous.json` write and no commit occur, and the previous
snapshot is left exactly as it was. -/
theorem format_error_aborts_run (e : Env) (data : Json)
    (h : getGrades data = none) :
    runMain e data = [Effect.writeCurrent data,
      Effect.fatalError ("JSON format unexpected.")] ∧
    mailsOf (runMain e data) = [] ∧
    (filesAfter e data).prev = initPrev e := by
  refine ⟨?_, ?_, ?_⟩ <;>
    simp [runMain, h, mailsOf, filesAfter, applyEffect, List.foldl]

/-- Witness for C7 amended, at a malformed current document and a present
previous snapshot. -/
theorem format_error_aborts_run_witness :
    runMain envStd dBad = [Effect.writeCurrent dBad,
      Effect.fatalError ("JSON format unexpected.")] ∧
    mailsOf (runMain envStd dBad) = [] ∧
    (filesAfter envStd dBad).prev = initPrev envStd :=
  format_error_aborts_run envStd dBad rfl

/-- C9 counterexample to the claim as stated: `previous.json` exists and
holds the JSON document `5`, which certainly lacks the nested `data.grades`
structure, yet the run is not tolerant of it: `prev.get("data", {})` raises
(`5` is not a dict), the run crashes after writing `current.json`, and no
record is reported as new. -/
theorem prev_malformed_crashes_cex :
    runMain envPrevNum snap3 = [Effect.writeCurrent snap3, Effect.crash] ∧
    mailsOf (runMain envPrevNum snap3) = [] :=
  ⟨rfl, rfl⟩

/-- C9 amended: if the previous snapshot file exists and is shaped so that
the lenient chain `prev.get("data", {}).get("grades", [])` resolves to the
empty default (each traversed value an object, the `data` or `grades` key
absent), the run does not fail there: the previous id set is treated as
empty, the computed new-id list is the sorted list of all current ids, and
every current record is reported as new — whereas the same missing shape in
the current document is fatal.  A previous snapshot whose traversal meets a
non-object value instead crashes the run (see the counterexample). -/
theorem prev_missing_shape_treated_empty (e : Env) (data : Json)
    (gs : List Json) (ids : List Int)
    (h1 : e.prevExists = true)
    (h2 : prevRecords e.prevContent = some (Json.arr []))
    (h3 : getGrades data = some (Json.arr gs))
    (h4 : getIds gs = some ids) :
    prevIdList e.prevContent = some [] ∧
    runNewIds e data = some (diff [] ids) ∧
    (∀ i, i ∈ ids → i ∈ diff [] ids) ∧
    runMain e data
      = Effect.writeCurrent data :: notifyPhase e data gs (diff [] ids) ∧
    (∀ d2, getGrades d2 = none →
      runMain e d2 = [Effect.writeCurrent d2,
        Effect.fatalError ("JSON format unexpected.")]) := by
  have hp : prevIdList e.prevContent = some [] := by
    simp [prevIdList, h2, Json.asArr, getIds]
  refine ⟨hp, ?_, ?_, ?_, ?_⟩
  · simp [runNewIds, h3, hp, Json.asArr, h4]
  · intro i hi
    exact (mem_diff i [] ids).mpr ⟨hi, by simp⟩
  · simp [runMain, h3, h1, diffPhase, hp, Json.asArr, h4]
  · intro d2 hd2
    simp [runMain, hd2]

/-- Witness for C9 amended: previous snapshot `{"data": {}}` (no `grades`
key), current snapshot with records 1 and 2; both are reported as new. -/
theorem prev_missing_shape_treated_empty_witness :
    prevIdList envPrevNoGrades.prevContent = some [] ∧
    runNewIds envPrevNoGrades (snapOf [gradeRec1, mathQuizRec 7]) = some (diff [] [1, 2]) ∧
    (1 : Int) ∈ diff [] [1, 2] ∧ (2 : Int) ∈ diff [] [1, 2] := by
  have h := prev_missing_shape_treated_empty envPrevNoGrades
    (snapOf [gradeRec1, mathQuizRec 7]) [gradeRec1, mathQuizRec 7] [1, 2]
    rfl rfl rfl rfl
  exact ⟨h.1, h.2.1, h.2.2.1 1 (by decide), h.2.2.1 2 (by decide)⟩

theorem mailPrecedesPersist_cons_writeCurrent (d : Json) (tr : List Effect) :
    mailPrecedesPersist (Effect.writeCurrent d :: tr) = mailPrecedesPersist tr := rfl

theorem mailPrecedesPersist_cons_sendMail (s b : String) (tr : List Effect) :
    mailPrecedesPersist (Effect.sendMail s b :: tr) = true := rfl

theorem mailPrecedesPersist_notifyPhase (e : Env) (d : Json) (gs : List Json)
    (ids : List Int) : mailPrecedesPersist (notifyPhase e d gs ids) = true := by
  unfold notifyPhase
  by_cases hi : ids.isEmpty
  · simp [hi, mailPrecedesPersist]
  · simp only [hi, if_false]
    cases notesFor gs ids
    · rfl
    · exact mailPrecedesPersist_cons_sendMail _ _ _

theorem mailPrecedesPersist_diffPhase (e : Env) (data : Json) (gJ : Json) :
    mailPrecedesPersist (diffPhase e data gJ) = true := by
  unfold diffPhase
  split
  · rfl
  · split
    · rfl
    · split
      · rfl
      · exact mailPrecedesPersist_notifyPhase _ _ _ _

theorem mailsOf_diffPhase (e : Env) (data : Json) (gJ : Json) :
    mailsOf (diffPhase e data gJ) = mailPlan e.prevContent gJ := by
  unfold diffPhase mailPlan
  split
  · rfl
  · split
    · rfl
    · split
      · rfl
      · rw [mailsOf_notifyPhase]
        unfold mailPlanNotify
        rfl

theorem mailsOf_runMain (e : Env) (data : Json) :
    mailsOf (runMain e data) =
      match getGrades data with
      | none => []
      | some gJ =>
        if e.prevExists = false then [] else mailPlan e.prevContent gJ := by
  unfold runMain
  show mailsOf _ = _
  rw [show ∀ tr, mailsOf (Effect.writeCurrent data :: tr) = mailsOf tr from fun tr => rfl]
  split
  · rfl
  · split
    · rfl
    · exact mailsOf_diffPhase _ _ _

theorem foldl_prev_unchanged (tr : List Effect) : ∀ fs : FileState,
    (∀ d, Effect.writePrev d ∉ tr) → Effect.gitMv ∉ tr →
    (tr.foldl applyEffect fs).prev = fs.prev := by
  induction tr with
  | nil => intro fs _ _; rfl
  | cons x rest ih =>
    intro fs hw hg
    rw [List.foldl_cons]
    have h1 : ∀ d, Effect.writePrev d ∉ rest :=
      fun d hd => hw d (List.mem_cons_of_mem _ hd)
    have h2 : Effect.gitMv ∉ rest := fun hd => hg (List.mem_cons_of_mem _ hd)
    rw [ih _ h1 h2]
    cases x with
    | writePrev d => exact absurd (List.mem_cons_self _ _) (hw d)
    | gitMv => exact absurd (List.mem_cons_self _ _) hg
    | writeCurrent d => rfl
    | commitPush m => rfl
    | sendMail s b => rfl
    | fatalError m => rfl
    | crash => rfl

theorem writePrev_not_in_notifyPhase (e : Env) (d : Json) (gs : List Json)
    (ids : List Int) (h2 : e.mailOk = false) (d2 : Json) :
    Effect.writePrev d2 ∉ notifyPhase e d gs ids := by
  unfold notifyPhase
  split
  · simp
  · split
    · simp
    · simp [h2]

theorem gitMv_not_in_notifyPhase (e : Env) (d : Json) (gs : List Json)
    (ids : List Int) : Effect.gitMv ∉ notifyPhase e d gs ids := by
  unfold notifyPhase
  split
  · simp
  · split
    · simp
    · by_cases hm : e.mailOk <;> simp [hm]

theorem writePrev_not_in_diffPhase (e : Env) (data gJ : Json)
    (h2 : e.mailOk = false) (d2 : Json) :
    Effect.writePrev d2 ∉ diffPhase e data gJ := by
  unfold diffPhase
  split
  · simp
  · split
    · simp
    · split
      · simp
      · exact writePrev_not_in_notifyPhase _ _ _ _ h2 _

theorem gitMv_not_in_diffPhase (e : Env) (data gJ : Json) :
    Effect.gitMv ∉ diffPhase e data gJ := by
  unfold diffPhase
  split
  · simp
  · split
    · simp
    · split
      · simp
      · exact gitMv_not_in_notifyPhase _ _ _ _

theorem prev_unchanged_of_noMail (e : Env) (data : Json)
    (h1 : e.prevExists = true) (h2 : e.mailOk = false) :
    (filesAfter e data).prev = some e.prevContent := by
  unfold filesAfter
  rw [foldl_prev_unchanged]
  · simp [initPrev, h1]
  · intro d hd
    revert hd
    unfold runMain
    simp only [List.mem_cons]
    rintro (h | h)
    · exact Effect.noConfusion h
    · revert h
      split
      · simp
      · split
        · simp
        · exact fun h => writePrev_not_in_diffPhase _ _ _ h2 _ h
  · unfold runMain
    simp only [List.mem_cons]
    rintro (h | h)
    · exact Effect.noConfusion h
    · revert h
      split
      · simp
      · split
        · rename_i hp
          simp [h1] at hp
        · exact fun h => gitMv_not_in_diffPhase _ _ _ h

/-- C10: in every run, no `previous.json` overwrite ever occurs before the
mail is handed to the transport (the first mail-or-overwrite event of the
trace, if any, is the mail); and in a non-bootstrap run whose transport
fails, the previous snapshot's content is unchanged after the run and the
very same notifications are attempted by a retry of the run with a healthy
transport on the same data. -/
theorem mail_precedes_prev_overwrite (e : Env) (data : Json) :
    mailPrecedesPersist (runMain e data) = true ∧
    (e.prevExists = true → e.mailOk = false →
      (filesAfter e data).prev = some e.prevContent ∧
      mailsOf (runMain e data)
        = mailsOf (runMain { e with mailOk := true } data)) := by
  refine ⟨?_, fun h1 h2 => ⟨prev_unchanged_of_noMail e data h1 h2, ?_⟩⟩
  · unfold runMain
    rw [mailPrecedesPersist_cons_writeCurrent]
    split
    · rfl
    · split
      · rfl
      · exact mailPrecedesPersist_diffPhase _ _ _
  · rw [mailsOf_runMain, mailsOf_runMain]

/-- Witness for C10: a failing-transport run over a snapshot containing a
new record leaves `previous.json` unchanged and would attempt the same
notification again on retry. -/
theorem mail_precedes_prev_overwrite_witness :
    mailPrecedesPersist (runMain envNoMail (snapOf [gradeRec1, mathQuizRec 5])) = true ∧
    (filesAfter envNoMail (snapOf [gradeRec1, mathQuizRec 5])).prev = some snapPrev1 ∧
    mailsOf (runMain envNoMail (snapOf [gradeRec1, mathQuizRec 5]))
      = mailsOf (runMain { envNoMail with mailOk := true } (snapOf [gradeRec1, mathQuizRec 5])) := by
  have h := mail_precedes_prev_overwrite envNoMail (snapOf [gradeRec1, mathQuizRec 5])
  exact ⟨h.1, (h.2 rfl rfl).1, (h.2 rfl rfl).2⟩

theorem pyDictGet_congr (g1 g2 : Json) (k : String) (d : Json)
    (h1 : g1.isObj = g2.isObj) (h2 : g1.find? k = g2.find? k) :
    pyDictGet g1 k d = pyDictGet g2 k d := by
  unfold pyDictGet
  rw [h1, h2]

theorem noteBody_congr (g1 g2 : Json) (h : recAgrees g1 g2) (i : Int) :
    noteBody g1 i = noteBody g2 i := by
  obtain ⟨ho, _, hc, hg⟩ := h
  unfold noteBody
  simp only [pyDictGet_congr g1 g2 kCollection (Json.obj []) ho hc,
    pyDictGet_congr g1 g2 kGivenAt Json.null ho hg]

theorem getIds_congr {gs1 gs2 : List Json} (h : List.Forall₂ recAgrees gs1 gs2) :
    getIds gs1 = getIds gs2 := by
  induction h with
  | nil => rfl
  | cons hab hrest ih =>
    unfold getIds
    simp only [hab.2.1, ih]

theorem notesFor_congr {gs1 gs2 : List Json} (h : List.Forall₂ recAgrees gs1 gs2)
    (ids : List Int) : notesFor gs1 ids = notesFor gs2 ids := by
  induction h with
  | nil => rfl
  | cons hab hrest ih =>
    rename_i a b l1 l2
    unfold notesFor
    simp only [hab.2.1, ih, noteBody_congr a b hab]

theorem mailPlan_congr (prev : Json) {gs1 gs2 : List Json}
    (hag : List.Forall₂ recAgrees gs1 gs2) :
    mailPlan prev (Json.arr gs1) = mailPlan prev (Json.arr gs2) := by
  unfold mailPlan
  cases prevIdList prev with
  | none => rfl
  | some prevIds =>
    simp only [Json.asArr]
    rw [getIds_congr hag]
    cases getIds gs2 with
    | none => rfl
    | some currIds =>
      simp only
      unfold mailPlanNotify
      rw [notesFor_congr hag]

/-- C3: the composed notification is independent of the records' `value`
fields (or any field other than `id`, `collection` and `given_at`): two
runs over current snapshots whose record lists agree pairwise on being
dicts and on the `id`, `collection` and `given_at` values — in particular,
snapshots differing only in numeric grade values — attempt exactly the same
notifications, with identical subject and body. -/
theorem mail_independent_of_value_fields (e : Env) (d1 d2 : Json)
    (gs1 gs2 : List Json)
    (h1 : getGrades d1 = some (Json.arr gs1))
    (h2 : getGrades d2 = some (Json.arr gs2))
    (hag : List.Forall₂ recAgrees gs1 gs2) :
    mailsOf (runMain e d1) = mailsOf (runMain e d2) := by
  rw [mailsOf_runMain, mailsOf_runMain, h1, h2]
  by_cases hp : e.prevExists = false
  · simp [hp]
  · simp only [hp, if_false]
    exact mailPlan_congr e.prevContent hag

/-- Witness for C3: two snapshots whose only difference is the numeric
`value` field (5 versus 6) produce the same attempted notifications. -/
theorem mail_independent_of_value_fields_witness :
    mailsOf (runMain envStd (snapOf [mathQuizRec 5]))
      = mailsOf (runMain envStd (snapOf [mathQuizRec 6])) :=
  mail_independent_of_value_fields envStd (snapOf [mathQuizRec 5])
    (snapOf [mathQuizRec 6]) [mathQuizRec 5] [mathQuizRec 6] rfl rfl
    (List.Forall₂.cons ⟨rfl, rfl, rfl, rfl⟩ List.Forall₂.nil)

theorem pyDictGet_of_isObj {j : Json} (h : j.isObj = true) (k : String) (d : Json) :
    pyDictGet j k d = some ((j.find? k).getD d) := by
  unfold pyDictGet
  rw [h]
  rfl

theorem find?_obj_nil (k : String) : (Json.obj []).find? k = none := rfl

theorem spec_subject_eq (g : Json) :
    (specLookupPath g [kCollection, kSubject, kName]).getD Json.null
      = (((((g.find? kCollection).getD (Json.obj [])).find? kSubject).getD
          (Json.obj [])).find? kName).getD Json.null := by
  cases hcol : g.find? kCollection with
  | none => simp [specLookupPath, hcol, find?_obj_nil]
  | some c =>
    cases hsub : c.find? kSubject with
    | none => simp [specLookupPath, hcol, hsub, find?_obj_nil]
    | some s =>
      cases hnm : s.find? kName with
      | none => simp [specLookupPath, hcol, hsub, hnm]
      | some v => simp [specLookupPath, hcol, hsub, hnm]

theorem spec_collection_eq (g : Json) :
    (specLookupPath g [kCollection, kName]).getD Json.null
      = (((g.find? kCollection).getD (Json.obj [])).find? kName).getD Json.null := by
  cases hcol : g.find? kCollection with
  | none => simp [specLookupPath, hcol, find?_obj_nil]
  | some c =>
    cases hnm : c.find? kName with
    | none => simp [specLookupPath, hcol, hnm]
    | some v => simp [specLookupPath, hcol, hnm]

/-- C4 counterexample to the claim as stated: for the record `subjNoName`,
whose `collection.subject` object has no explicit `name` but does carry an
alternate identifier field (`id` 42), the composer extracts the subject as
Python `None` — no fall-back to the alternate identifier field and no fixed
"unknown" placeholder takes place (the rendered value is "None"). -/
theorem note_subject_no_alternate_fallback_cex :
    (noteBody subjNoName 1).map Note.subject = some Json.null ∧
    specLookupPath subjNoName [kCollection, kSubject]
      = some (Json.obj [(kId, Json.num 42)]) ∧
    Json.null ≠ Json.num 42 ∧
    Json.pystr Json.null = "None" ∧
    ("None" : String) ≠ "unknown" :=
  ⟨rfl, rfl, fun h => Json.noConfusion h, rfl, by decide⟩

/-- C4 amended: for every new record that is a dict whose `collection`
value (after the empty-dict default) and `collection.subject` value are
dicts, the composer extracts the subject name by the nested lookup
`collection → subject → name` with the Python `None` default when any step
is missing (no alternate-identifier fallback, no "unknown" placeholder),
the collection name by `collection → name` with the same `None` default,
and includes the `given_at` field verbatim (default `None`). -/
theorem note_extraction_defaults_to_none (g : Json) (i : Int)
    (hg : g.isObj = true)
    (hc : ((g.find? kCollection).getD (Json.obj [])).isObj = true)
    (hs : ((((g.find? kCollection).getD (Json.obj [])).find? kSubject).getD
      (Json.obj [])).isObj = true) :
    noteBody g i = some
      { id := i,
        subject := (specLookupPath g [kCollection, kSubject, kName]).getD Json.null,
        collection := (specLookupPath g [kCollection, kName]).getD Json.null,
        given_at := (g.find? kGivenAt).getD Json.null } := by
  unfold noteBody
  rw [spec_subject_eq, spec_collection_eq]
  simp [pyDictGet_of_isObj hg, pyDictGet_of_isObj hc, pyDictGet_of_isObj hs]

/-- Witness for C4 amended, at the record `subjNoName`. -/
theorem note_extraction_defaults_to_none_witness :
    noteBody subjNoName 1 = some
      { id := 1,
        subject := (specLookupPath subjNoName [kCollection, kSubject, kName]).getD Json.null,
        collection := (specLookupPath subjNoName [kCollection, kName]).getD Json.null,
        given_at := (subjNoName.find? kGivenAt).getD Json.null } :=
  note_extraction_defaults_to_none subjNoName 1 rfl rfl rfl

/-- C5 counterexample to the claim as stated: on a page that silently
truncates the filled identity field ("alice" was written, the re-read value
is "al"), the authenticator does not fail — it prints the re-read value and
proceeds, and the attempt succeeds.  No equality between the written and
re-read values is ever required. -/
theorem login_ignores_readback_mismatch_cex :
    (login secretsEx pageGarbled).result = LoginResult.success ∧
    (login secretsEx pageGarbled).filledUser = some ("alice") ∧
    (login secretsEx pageGarbled).readUser = some ("al") ∧
    ("al" : String) ≠ "alice" :=
  ⟨rfl, rfl, rfl, by decide⟩

/-- C5 amended: after populating the identity and secret fields, the
authenticator re-reads each field's value and prints it for diagnostics
only: no comparison with the written value occurs, the outcome of the
attempt is independent of the re-read values, and a successful attempt
records exactly the configured credentials as written and whatever the page
reports as re-read. -/
theorem login_outcome_independent_of_readback (c : Secrets) (p : Page)
    (v1 v2 : String) :
    (login c { p with userReadback := v1, passReadback := v2 }).result
      = (login c p).result ∧
    ((login c p).result = LoginResult.success →
      (login c p).filledUser = some c.loginUsername ∧
      (login c p).readUser = some p.userReadback ∧
      (login c p).filledPass = some c.loginPassword ∧
      (login c p).readPass = some p.passReadback) := by
  unfold login
  dsimp only
  cases hu : findField p.inputNames (possible_user_fields c) with
  | none => simp
  | some u =>
    cases hw : findField p.inputNames (possible_pass_fields c) with
    | none => simp
    | some w =>
      by_cases he : p.enterSubmits
      · simp [he]
      · by_cases hb : (strategyB p.buttons).2 <;> simp [he, hb]

/-- Witness for C5 amended: replacing the page's re-read values changes
nothing about the outcome, and the successful attempt records the page's
re-read value. -/
theorem login_outcome_independent_of_readback_witness :
    (login secretsEx { pageGarbled with userReadback := "x", passReadback := "y" }).result
      = (login secretsEx pageGarbled).result ∧
    (login secretsEx pageGarbled).readUser = some ("al") := by
  have h := login_outcome_independent_of_readback secretsEx pageGarbled "x" "y"
  exact ⟨h.1, (h.2 rfl).2.1⟩

theorem find?_first_pred {α : Type} (q : α → Bool) :
    ∀ (l : List α) (a : α), l.find? q = some a →
      q a = true ∧ ∃ pre post, l = pre ++ a :: post ∧ ∀ b ∈ pre, q b = false := by
  intro l
  induction l with
  | nil => intro a h; exact absurd h (by simp)
  | cons x rest ih =>
    intro a h
    by_cases hx : q x
    · rw [List.find?_cons_of_pos _ hx] at h
      obtain rfl : x = a := by injection h
      exact ⟨hx, [], rest, rfl, by simp⟩
    · rw [List.find?_cons_of_neg _ hx] at h
      obtain ⟨hq, pre, post, hl, hpre⟩ := ih a h
      refine ⟨hq, x :: pre, post, by rw [hl, List.cons_append], ?_⟩
      intro b hb
      rcases List.mem_cons.mp hb with rfl | hb2
      · exact Bool.not_eq_true _ ▸ hx
      · exact hpre b hb2

/-- C6: identity-field resolution tries, in order, the configured preferred
field name and then the fixed fallback list, selecting the first candidate
for which a matching control exists: whenever the page exposes a control
named exactly the preferred name, that name is selected even if fallback
names are also present; a selected name always matches a control and every
candidate before it matches none; and when no candidate matches, the
attempt fails with the username-field-not-found error. -/
theorem user_field_resolution (c : Secrets) (p : Page) :
    (p.inputNames.contains c.loginFormFieldUser = true →
      findField p.inputNames (possible_user_fields c) = some c.loginFormFieldUser) ∧
    (∀ f, findField p.inputNames (possible_user_fields c) = some f →
      p.inputNames.contains f = true ∧
      ∃ pre post, possible_user_fields c = pre ++ f :: post ∧
        ∀ g2, g2 ∈ pre → p.inputNames.contains g2 = false) ∧
    (findField p.inputNames (possible_user_fields c) = none →
      (login c p).result = LoginResult.noUserField) := by
  refine ⟨?_, ?_, ?_⟩
  · intro h
    unfold findField possible_user_fields
    rw [List.find?_cons_of_pos _ h]
  · intro f hf
    exact find?_first_pred (fun f => p.inputNames.contains f)
      (possible_user_fields c) f hf
  · intro h
    unfold login
    rw [h]

/-- Witness for C6: a page exposing both the preferred name "login_id" and
the fallback names resolves to "login_id"; a page with no candidate fails
with the username-field error. -/
theorem user_field_resolution_witness :
    findField pagePref.inputNames (possible_user_fields secretsPref)
      = some ("login_id") ∧
    (login secretsPref pageNoFields).result = LoginResult.noUserField :=
  ⟨(user_field_resolution secretsPref pagePref).1 (by decide),
   (user_field_resolution secretsPref pageNoFields).2.2 (by decide)⟩

theorem strategyB_length (bs : List BtnOutcome) :
    (strategyB bs).1.length ≤ bs.length := by
  induction bs with
  | nil => simp [strategyB]
  | cons b rest ih =>
    cases b with
    | submits => simp [strategyB]
    | raises => simpa [strategyB] using Nat.succ_le_succ ih
    | noEffect => simpa [strategyB] using Nat.succ_le_succ ih

theorem strategyB_stops_at_first_submit (post : List BtnOutcome) :
    ∀ pre, (∀ b, b ∈ pre → b ≠ BtnOutcome.submits) →
      strategyB (pre ++ BtnOutcome.submits :: post)
        = (pre ++ [BtnOutcome.submits], true) := by
  intro pre
  induction pre with
  | nil => intro _; rfl
  | cons b rest ih =>
    intro hpre
    have hb : b ≠ BtnOutcome.submits := hpre b (List.mem_cons_self _ _)
    have ih2 := ih (fun x hx => hpre x (List.mem_cons_of_mem _ hx))
    cases b with
    | submits => exact absurd rfl hb
    | raises => simp [List.cons_append, strategyB, ih2]
    | noEffect => simp [List.cons_append, strategyB, ih2]

/-- C8: during submission strategy B, a candidate whose click raises is
swallowed and the loop advances to the next candidate with the final
outcome unchanged; the loop stops at the first candidate whose click makes
the identity field disappear, attempting no later candidate; the whole
heuristic is bounded to one ENTER attempt plus at most one pass over the
clickable candidates; and when the ENTER attempt did not submit and no
candidate submits, authentication fails. -/
theorem strategyB_bounded_and_exception_tolerant (c : Secrets) (p : Page)
    (hu : findField p.inputNames (possible_user_fields c) ≠ none)
    (hw : findField p.inputNames (possible_pass_fields c) ≠ none)
    (he : p.enterSubmits = false) :
    (∀ bs : List BtnOutcome,
      strategyB (BtnOutcome.raises :: bs)
        = (BtnOutcome.raises :: (strategyB bs).1, (strategyB bs).2)) ∧
    (∀ pre post, (∀ b, b ∈ pre → b ≠ BtnOutcome.submits) →
      strategyB (pre ++ BtnOutcome.submits :: post)
        = (pre ++ [BtnOutcome.submits], true)) ∧
    (login c p).clicks = (strategyB p.buttons).1 ∧
    (login c p).clicks.length ≤ p.buttons.length ∧
    (login c p).enterPressed = true ∧
    ((strategyB p.buttons).2 = false →
      (login c p).result = LoginResult.loginFailed) := by
  obtain ⟨u, hu2⟩ := Option.ne_none_iff_exists'.mp hu
  obtain ⟨w, hw2⟩ := Option.ne_none_iff_exists'.mp hw
  refine ⟨fun bs => rfl, fun pre post h => strategyB_stops_at_first_submit post pre h,
    ?_, ?_, ?_, ?_⟩
  · simp [login, hu2, hw2, he]
  · simp [login, hu2, hw2, he, strategyB_length]
  · simp [login, hu2, hw2, he]
  · intro hsb
    simp [login, hu2, hw2, he, hsb]

/-- Witness for C8, at a page where ENTER does not submit, the first button
click raises and the second has no effect: both candidates are attempted,
the pass is bounded, and the attempt fails. -/
theorem strategyB_bounded_and_exception_tolerant_witness :
    (login secretsEx pageStuck).clicks = (strategyB pageStuck.buttons).1 ∧
    (login secretsEx pageStuck).clicks.length ≤ pageStuck.buttons.length ∧
    (login secretsEx pageStuck).enterPressed = true ∧
    (login secretsEx pageStuck).result = LoginResult.loginFailed ∧
    strategyB ([BtnOutcome.raises] ++ BtnOutcome.submits :: [])
      = ([BtnOutcome.raises] ++ [BtnOutcome.submits], true) := by
  have h := strategyB_bounded_and_exception_tolerant secretsEx pageStuck
    (by decide) (by decide) rfl
  exact ⟨h.2.2.1, h.2.2.2.1, h.2.2.2.2.1, h.2.2.2.2.2 rfl,
    h.2.1 [BtnOutcome.raises] [] (by decide)⟩
